import Mathlib

/-!
# Verification of the charity-tracker service-composition core

Shallow embedding of the repository's resilience framework:

* `FeatureFlagsManager` (source `FeatureFlags.ts`): flag configs, user
  context, `isEnabled`, `getEnabledFlags`, `updateFlag`, `updateFlags`,
  `reportError`, `onFlagChange`, and the 32-bit string hash used for
  percentage rollout.
* `ServiceRegistry` (source `ServiceRegistry.ts`): registrations,
  `register`, `get`/`createInstance`, `replace`/`notifyDependents`,
  `initializeAll`/`resolveDependencyOrder`, `shutdown`.
* `ModularErrorBoundary` (source `ModularErrorBoundary.tsx`): the
  per-module fault isolator, modelled as a discrete transition system
  whose events are caught errors, timer firings and the manual reset.

JS `Map`s are modelled as association lists in insertion order (JS `Map`
iteration order); JS recursion that carries no termination guarantee is
modelled with an explicit fuel parameter, where exhausting every fuel
bound corresponds to non-termination of the source recursion.
-/

/-! ## Association-list model of JS `Map` -/

/-- Lookup in insertion-ordered association list (JS `Map.get`). -/
def mapGet {α : Type} : List (String × α) → String → Option α
  | [], _ => none
  | (k, v) :: rest, key => if k = key then some v else mapGet rest key

/-- JS `Map.set`: replace the value in place if the key exists, else append. -/
def mapSet {α : Type} : List (String × α) → String → α → List (String × α)
  | [], key, v => [(key, v)]
  | (k, w) :: rest, key, v =>
    if k = key then (k, v) :: rest else (k, w) :: mapSet rest key v

/-- JS `Map.delete`: drop the (first) entry for the key. -/
def mapDelete {α : Type} : List (String × α) → String → List (String × α)
  | [], _ => []
  | (k, w) :: rest, key => if k = key then rest else (k, w) :: mapDelete rest key

/-- `errorCounts.get(flagName) || 0`. -/
def mapGetN (m : List (String × Nat)) (k : String) : Nat := (mapGet m k).getD 0

/-! ## Feature flag data model (`FeatureFlags.ts`) -/

/-- `FeatureFlagConfig`: optional fields are `Option` (JS `undefined` = `none`).
    Dates are integer timestamps. -/
structure FeatureFlagConfig where
  enabled : Bool
  rolloutPercentage : Option Int := none
  userSegments : Option (List String) := none
  startDate : Option Int := none
  endDate : Option Int := none
  dependencies : Option (List String) := none
  rollbackOnError : Option Bool := none
  description : Option String := none
deriving DecidableEq

/-- `Partial<FeatureFlagConfig>`: a present key (`some`) overrides on merge,
    an absent key (`none`) keeps the current value (JS object spread). -/
structure PartialFlagConfig where
  enabled : Option Bool := none
  rolloutPercentage : Option (Option Int) := none
  userSegments : Option (Option (List String)) := none
  startDate : Option (Option Int) := none
  endDate : Option (Option Int) := none
  dependencies : Option (Option (List String)) := none
  rollbackOnError : Option (Option Bool) := none
  description : Option (Option String) := none
deriving DecidableEq

/-- `{ ...currentConfig, ...config }` in `updateFlag`. -/
def mergeConfig (c : FeatureFlagConfig) (p : PartialFlagConfig) : FeatureFlagConfig :=
  { enabled := p.enabled.getD c.enabled
    rolloutPercentage := p.rolloutPercentage.getD c.rolloutPercentage
    userSegments := p.userSegments.getD c.userSegments
    startDate := p.startDate.getD c.startDate
    endDate := p.endDate.getD c.endDate
    dependencies := p.dependencies.getD c.dependencies
    rollbackOnError := p.rollbackOnError.getD c.rollbackOnError
    description := p.description.getD c.description }

/-- `UserContext` from `FeatureFlags.ts` (dates as integer timestamps). -/
structure UserContext where
  userId : String
  isPaidUser : Bool
  isAdmin : Bool
  isDeveloper : Bool
  createdAt : Int := 0
  lastLogin : Int := 0
deriving DecidableEq

/-- The mutable fields of a `FeatureFlagsManager` instance. Listeners are
    identified by numeric ids; a notification is recorded as the pair of the
    listener id and the boolean the callback receives. -/
structure FlagsState where
  flags : List (String × FeatureFlagConfig)
  userContext : Option UserContext := none
  errorCounts : List (String × Nat) := []
  listeners : List (String × List Nat) := []
deriving DecidableEq

/-! ## Rollout hash (`hashUserId`) -/

/-- JS `ToInt32` (the effect of `hash = hash & hash`). -/
def toInt32 (n : Int) : Int := (n + 2 ^ 31) % 2 ^ 32 - 2 ^ 31

/-- One iteration of the loop body
    `hash = ((hash << 5) - hash) + char; hash = hash & hash`. -/
def hashStep (h : Int) (c : Nat) : Int := toInt32 (toInt32 (h * 32) - h + c)

/-- `hashUserId(userId, flagName)`: fold the 32-bit string hash over
    `userId + "_" + flagName`, then `Math.abs`.
    (`charCodeAt` agrees with the Unicode code point on the BMP characters
    used throughout the repository.) -/
def hashUserId (userId flagName : String) : Nat :=
  ((userId ++ "_" ++ flagName).data.foldl (fun h ch => hashStep h ch.toNat) 0).natAbs

/-! ## `isEnabled` -/

/-- The hard-coded core-flag test in `isEnabled`/`getEnabledFlags`. -/
def coreFlag (f : String) : Bool :=
  f = "BASIC_AUTH" ∨ f = "DONATION_TRACKING" ∨ f = "CHARITY_SEARCH"

/-- The dependency loop `for (const dep of config.dependencies) {
    if (!this.isEnabled(dep)) return false; }`: a `some true` accumulator
    continues with the next dependency, anything else short-circuits. -/
def depAnd (acc r : Option Bool) : Option Bool :=
  match acc with
  | some true => r
  | x => x

/-- `switch (segment)` inside the `userSegments.some(...)` check. -/
def segMatch (u : UserContext) (seg : String) : Bool :=
  if seg = "paid" then u.isPaidUser
  else if seg = "admin" then u.isAdmin
  else if seg = "developer" then u.isDeveloper
  else false

/-- `isEnabled(flagName)` with explicit evaluation time `now` and recursion
    fuel. `none` means the source recursion through the flag dependency
    graph does not return within the given depth (the source has no cycle
    guard here). -/
def isEnabledF : Nat → Int → FlagsState → String → Option Bool
  | 0, _, _, _ => none
  | n + 1, now, s, flagName =>
    match mapGet s.flags flagName with
    | none => some false
    | some config =>
      if coreFlag flagName then some true
      else if config.enabled = false then some false
      else if (match config.startDate with
               | some d => decide (now < d)
               | none => false) then some false
      else if (match config.endDate with
               | some d => decide (d < now)
               | none => false) then some false
      else
        match (config.dependencies.getD []).foldl
            (fun acc d => depAnd acc (isEnabledF n now s d)) (some true) with
        | none => none
        | some false => some false
        | some true =>
          let segOk : Bool :=
            match config.userSegments, s.userContext with
            | some segs, some u => segs.any (segMatch u)
            | _, _ => true
          if segOk = false then some false
          else
            match config.rolloutPercentage with
            | some p =>
              if p < 100 then
                match s.userContext with
                | none => some false
                | some u =>
                  if u.userId = "" then some false
                  else some (decide ((hashUserId u.userId flagName % 100 : Int) < p))
              else some true
            | none => some true

/-! ## Other `FeatureFlagsManager` operations -/

/-- `setUserContext(context)`. -/
def setUserContext (s : FlagsState) (u : UserContext) : FlagsState :=
  { s with userContext := some u }

/-- `updateFlag(flagName, config)`: merge into the existing config (default
    base `{ enabled: false }`), store it, and return the notifications sent
    to that flag's listeners (listener id paired with the boolean passed,
    which in the source is `updatedConfig.enabled`). -/
def updateFlag (s : FlagsState) (flagName : String) (p : PartialFlagConfig) :
    FlagsState × List (Nat × Bool) :=
  let currentConfig := (mapGet s.flags flagName).getD { enabled := false }
  let updatedConfig := mergeConfig currentConfig p
  let s1 := { s with flags := mapSet s.flags flagName updatedConfig }
  let notifs := ((mapGet s.listeners flagName).getD []).map
    (fun id => (id, updatedConfig.enabled))
  (s1, notifs)

/-- `updateFlags(flags)`: one `updateFlag` per entry, each setting only
    `enabled` (state part; the notifications go to the same listeners). -/
def updateFlags (s : FlagsState) (fs : List (String × Bool)) : FlagsState :=
  fs.foldl (fun st nb => (updateFlag st nb.1 { enabled := some nb.2 }).1) s

/-- `reportError(flagName, error)`. The `error` argument never influences
    the state, so it is omitted. Returns the new state and any listener
    notifications produced by the rollback's `updateFlag`. -/
def reportError (s : FlagsState) (flagName : String) : FlagsState × List (Nat × Bool) :=
  match mapGet s.flags flagName with
  | none => (s, [])
  | some config =>
    if config.rollbackOnError ≠ some true then (s, [])
    else
      let currentCount := mapGetN s.errorCounts flagName
      let s1 := { s with errorCounts := mapSet s.errorCounts flagName (currentCount + 1) }
      if 10 ≤ currentCount then
        let r := updateFlag s1 flagName { enabled := some false }
        ({ r.1 with errorCounts := mapDelete r.1.errorCounts flagName }, r.2)
      else (s1, [])

/-- `onFlagChange(flagName, callback)`: append a listener id. -/
def onFlagChange (s : FlagsState) (flagName : String) (id : Nat) : FlagsState :=
  { s with listeners :=
      mapSet s.listeners flagName (((mapGet s.listeners flagName).getD []) ++ [id]) }

/-- The fixed list iterated by `getEnabledFlags`, in source order. -/
def flagNames : List String :=
  ["BASIC_AUTH", "DONATION_TRACKING", "CHARITY_SEARCH",
   "MONEY_DONATIONS", "ITEMS_DONATIONS", "MILEAGE_DONATIONS", "STOCK_DONATIONS",
   "CRYPTO_DONATIONS",
   "STOCK_PRICING_API", "CRYPTO_PRICING_API", "CHARITY_AUTOCOMPLETE",
   "ADVANCED_REPORTS", "FILE_UPLOADS", "DATA_EXPORT", "TAX_OPTIMIZATION_TOOLS",
   "ADMIN_PANEL", "USER_MANAGEMENT", "CHARITY_VERIFICATION", "SYSTEM_MONITORING",
   "PAYMENT_ENFORCEMENT", "STRIPE_PAYMENTS", "LICENSE_UPGRADES",
   "NEW_DASHBOARD_UI", "AI_TAX_SUGGESTIONS", "BULK_IMPORT", "MOBILE_APP_INTEGRATION",
   "DEVELOPER_TOOLS", "PERFORMANCE_MONITORING", "ERROR_REPORTING"]

/-- `getEnabledFlags()`: core flags are written `true` directly, every other
    flag through `isEnabled`; `none` if any `isEnabled` call diverges. -/
def getEnabledFlagsF (fuel : Nat) (now : Int) (s : FlagsState) :
    Option (List (String × Bool)) :=
  flagNames.foldr
    (fun fn acc =>
      match acc with
      | none => none
      | some rest =>
        if coreFlag fn then some ((fn, true) :: rest)
        else
          match isEnabledF fuel now s fn with
          | none => none
          | some b => some ((fn, b) :: rest))
    (some [])

/-! ## Default flag configuration (`initializeDefaultFlags`) -/

/-- The 29 default flag configs, in source insertion order. -/
def defaultFlags : List (String × FeatureFlagConfig) :=
  [("BASIC_AUTH", { enabled := true, description := some "User authentication system" }),
   ("DONATION_TRACKING", { enabled := true, description := some "Core donation tracking functionality" }),
   ("CHARITY_SEARCH", { enabled := true, description := some "Charity search and selection" }),
   ("MONEY_DONATIONS", { enabled := true, rollbackOnError := some true, description := some "Cash/check donations" }),
   ("ITEMS_DONATIONS", { enabled := true, rollbackOnError := some true, description := some "Item donations with valuation" }),
   ("MILEAGE_DONATIONS", { enabled := true, rollbackOnError := some true, description := some "Mileage-based donations" }),
   ("STOCK_DONATIONS", { enabled := true, rollbackOnError := some true, description := some "Stock and securities donations" }),
   ("CRYPTO_DONATIONS", { enabled := true, rollbackOnError := some true, description := some "Cryptocurrency donations" }),
   ("STOCK_PRICING_API", { enabled := true, rollbackOnError := some true, dependencies := some ["STOCK_DONATIONS"], description := some "Real-time stock price lookup" }),
   ("CRYPTO_PRICING_API", { enabled := true, rollbackOnError := some true, dependencies := some ["CRYPTO_DONATIONS"], description := some "Real-time crypto price lookup" }),
   ("CHARITY_AUTOCOMPLETE", { enabled := true, rollbackOnError := some true, dependencies := some ["CHARITY_SEARCH"], description := some "Type-ahead charity search" }),
   ("ADVANCED_REPORTS", { enabled := true, userSegments := some ["paid", "admin"], description := some "Detailed tax reports" }),
   ("FILE_UPLOADS", { enabled := true, userSegments := some ["paid", "admin"], description := some "Receipt file uploads" }),
   ("DATA_EXPORT", { enabled := true, userSegments := some ["paid", "admin"], description := some "CSV/PDF export" }),
   ("TAX_OPTIMIZATION_TOOLS", { enabled := true, userSegments := some ["paid", "admin"], description := some "Tax planning tools" }),
   ("ADMIN_PANEL", { enabled := true, userSegments := some ["admin"], description := some "Administrative interface" }),
   ("USER_MANAGEMENT", { enabled := true, userSegments := some ["admin"], description := some "User account management" }),
   ("CHARITY_VERIFICATION", { enabled := true, userSegments := some ["admin"], description := some "Charity verification system" }),
   ("SYSTEM_MONITORING", { enabled := true, userSegments := some ["admin"], description := some "System health monitoring" }),
   ("PAYMENT_ENFORCEMENT", { enabled := false, description := some "Enforce donation limits for free users" }),
   ("STRIPE_PAYMENTS", { enabled := true, rollbackOnError := some true, description := some "Stripe payment processing" }),
   ("LICENSE_UPGRADES", { enabled := true, dependencies := some ["STRIPE_PAYMENTS", "PAYMENT_ENFORCEMENT"], rollbackOnError := some true, description := some "License upgrade flow" }),
   ("NEW_DASHBOARD_UI", { enabled := false, rolloutPercentage := some 10, rollbackOnError := some true, description := some "Redesigned dashboard interface" }),
   ("AI_TAX_SUGGESTIONS", { enabled := false, rolloutPercentage := some 5, rollbackOnError := some true, description := some "AI-powered tax optimization suggestions" }),
   ("BULK_IMPORT", { enabled := false, rolloutPercentage := some 25, userSegments := some ["paid", "admin"], description := some "Bulk donation import from CSV" }),
   ("MOBILE_APP_INTEGRATION", { enabled := false, rolloutPercentage := some 0, description := some "Mobile app connectivity" }),
   ("DEVELOPER_TOOLS", { enabled := false, userSegments := some ["developer"], description := some "Development debugging tools" }),
   ("PERFORMANCE_MONITORING", { enabled := true, description := some "Performance monitoring and metrics" }),
   ("ERROR_REPORTING", { enabled := true, description := some "Error reporting and logging" })]

/-- Manager state right after `initializeDefaultFlags()`. -/
def defaultState : FlagsState := { flags := defaultFlags }

/-- The constructor: defaults, then `updateFlags(initialFlags)` if given. -/
def mkManager (initial : Option (List (String × Bool))) : FlagsState :=
  match initial with
  | none => defaultState
  | some fs => updateFlags defaultState fs

/-- States a `FeatureFlagsManager` can reach through its public API. -/
inductive FlagsReach : FlagsState → Prop
  | ctor (initial : Option (List (String × Bool))) : FlagsReach (mkManager initial)
  | upd {s} (name : String) (p : PartialFlagConfig) :
      FlagsReach s → FlagsReach (updateFlag s name p).1
  | updMany {s} (fs : List (String × Bool)) :
      FlagsReach s → FlagsReach (updateFlags s fs)
  | report {s} (name : String) :
      FlagsReach s → FlagsReach (reportError s name).1
  | setCtx {s} (u : UserContext) :
      FlagsReach s → FlagsReach (setUserContext s u)
  | listen {s} (name : String) (id : Nat) :
      FlagsReach s → FlagsReach (onFlagChange s name id)

/-! ## Service registry data model (`ServiceRegistry.ts`) -/

/-- `ServiceError` codes thrown by the registry. -/
inductive ErrCode
  | SERVICE_ALREADY_REGISTERED
  | SERVICE_NOT_FOUND
  | SERVICE_CREATION_FAILED
  | SERVICE_REPLACEMENT_FAILED
  | CIRCULAR_DEPENDENCY
  | CRITICAL_SERVICE_INIT_FAILED
deriving DecidableEq

/-- A service implementation constructor: an identity plus the observable
    behaviour the registry consumes — whether `initialize` resolves and what
    `isHealthy()` reports. -/
structure Impl where
  id : Nat
  initOk : Bool
  healthy : Bool
deriving DecidableEq

/-- A live service instance, tagged with the implementation that created it. -/
structure Inst where
  implId : Nat
deriving DecidableEq

/-- `ServiceRegistration` (the `instance` field is spelled `inst`:
    `instance` is a Lean keyword). `config` is an opaque identifier. -/
structure Registration where
  token : String
  implementation : Impl
  inst : Option Inst
  dependencies : List String
  config : Nat
  singleton : Bool
deriving DecidableEq

/-- The mutable fields of a `ServiceRegistry` instance. -/
structure RegState where
  services : List (String × Registration)
  initializationOrder : List String
  isShuttingDown : Bool
deriving DecidableEq

/-- A fresh `ServiceRegistry`. -/
def emptyReg : RegState :=
  { services := [], initializationOrder := [], isShuttingDown := false }

/-- Outcome of an async registry operation: `out` models the source
    recursion exceeding every depth bound (non-termination), `err` a thrown
    `ServiceError` together with the mutable state at the throw, `ok` a
    result with the updated state. -/
inductive Res (α : Type)
  | out
  | err (e : ErrCode) (s : RegState)
  | ok (a : α) (s : RegState)
deriving DecidableEq

/-- Forget the value of a `Res` (used where the caller keeps only state). -/
def resUnit : Res Inst → Res Unit
  | .out => .out
  | .err e s => .err e s
  | .ok _ s => .ok () s

/-- `register(token, implementation, options)`. -/
def register (s : RegState) (token : String) (impl : Impl) (deps : List String)
    (cfg : Nat) (singleton : Bool) : Except ErrCode RegState :=
  if (mapGet s.services token).isSome then .error .SERVICE_ALREADY_REGISTERED
  else
    let reg : Registration :=
      { token := token, implementation := impl, inst := none,
        dependencies := deps, config := cfg, singleton := singleton }
    .ok { s with services := mapSet s.services token reg }

/-- `get(token)` with `createInstance` inlined, fuel-indexed on recursion
    depth. Per the source: a cached singleton instance is returned directly;
    otherwise dependencies are resolved recursively via `get` (threading the
    registry state, since each dependency resolution may cache instances),
    the instance is constructed and initialized (any failure is caught and
    rethrown as `SERVICE_CREATION_FAILED` with whatever state the partial
    resolution left behind), and a singleton caches the new instance. -/
def getF : Nat → RegState → String → Res Inst
  | 0, _, _ => .out
  | n + 1, s, token =>
    match mapGet s.services token with
    | none => .err .SERVICE_NOT_FOUND s
    | some reg =>
      match reg.singleton, reg.inst with
      | true, some i => .ok i s
      | _, _ =>
        match reg.dependencies.foldl
            (fun acc d =>
              match acc with
              | Res.ok _ s1 => resUnit (getF n s1 d)
              | x => x)
            (Res.ok () s) with
        | .out => .out
        | .err _ s1 => .err .SERVICE_CREATION_FAILED s1
        | .ok _ s1 =>
          if reg.implementation.initOk then
            let i : Inst := { implId := reg.implementation.id }
            if reg.singleton then
              match mapGet s1.services token with
              | some r2 =>
                let s2 :=
                  { s1 with services := mapSet s1.services token { r2 with inst := some i } }
                .ok i s2
              | none => .ok i s1
            else .ok i s1
          else .err .SERVICE_CREATION_FAILED s1

/-- The services whose `dependencies` include `token` (first loop of
    `notifyDependents`), in map iteration order. -/
def depTokens (s : RegState) (token : String) : List String :=
  (s.services.filter (fun kv => token ∈ kv.2.dependencies)).map Prod.fst

/-- Second loop of `notifyDependents`: for each dependent with a live
    instance, shut it down, clear it and recreate it via `get`; errors are
    caught and logged, the loop continues. -/
def notifyGo (n : Nat) : List String → RegState → Res Unit
  | [], s => .ok () s
  | d :: rest, s =>
    match mapGet s.services d with
    | none => notifyGo n rest s
    | some r =>
      match r.inst with
      | none => notifyGo n rest s
      | some _ =>
        let s1 := { s with services := mapSet s.services d { r with inst := none } }
        match getF n s1 d with
        | .out => .out
        | .err _ s2 => notifyGo n rest s2
        | .ok _ s2 => notifyGo n rest s2

/-- `replace(token, newImplementation, config?)`: validate a throwaway
    instance (initialize + health check) before touching the live
    registration; on validation failure the caught error is rethrown as
    `SERVICE_REPLACEMENT_FAILED` with the registry untouched; on success the
    old instance is shut down, the registration is updated (config only when
    one is passed), the cached instance cleared, and dependents recreated. -/
def replaceF (n : Nat) (s : RegState) (token : String) (newImpl : Impl)
    (cfg : Option Nat) : Res Unit :=
  match mapGet s.services token with
  | none => .err .SERVICE_NOT_FOUND s
  | some reg =>
    if newImpl.initOk = false then .err .SERVICE_REPLACEMENT_FAILED s
    else if newImpl.healthy = false then .err .SERVICE_REPLACEMENT_FAILED s
    else
      let reg2 := { reg with implementation := newImpl,
                             config := cfg.getD reg.config, inst := none }
      let s1 := { s with services := mapSet s.services token reg2 }
      notifyGo n (depTokens s1 token) s1

/-- The critical-service allow-list (`isCriticalService`). -/
def isCriticalService (token : String) : Bool :=
  token ∈ ["AUTH_SERVICE", "CONFIG_SERVICE", "ERROR_HANDLER"]

/-- State of the topological-sort traversal in `resolveDependencyOrder`. -/
structure VisitSt where
  visited : List String
  visiting : List String
  order : List String
deriving DecidableEq

/-- The recursive `visit` closure of `resolveDependencyOrder`: memoised on
    `visited`, throws `CIRCULAR_DEPENDENCY` on a token already in the
    `visiting` set, otherwise visits all dependencies first, then appends
    the token to the order. `none` is fuel exhaustion. -/
def visitF : Nat → List (String × Registration) → String → VisitSt →
    Option (Except ErrCode VisitSt)
  | 0, _, _, _ => none
  | n + 1, svcs, token, st =>
    if token ∈ st.visited then some (.ok st)
    else if token ∈ st.visiting then some (.error .CIRCULAR_DEPENDENCY)
    else
      let st1 := { st with visiting := token :: st.visiting }
      let deps := match mapGet svcs token with
                  | some r => r.dependencies
                  | none => []
      match deps.foldl
          (fun acc d =>
            match acc with
            | some (Except.ok st2) => visitF n svcs d st2
            | x => x)
          (some (Except.ok st1)) with
      | none => none
      | some (.error e) => some (.error e)
      | some (.ok st2) =>
        some (.ok { visited := token :: st2.visited,
                    visiting := st2.visiting.erase token,
                    order := st2.order ++ [token] })

/-- `resolveDependencyOrder()`: visit every registered token in insertion
    order. -/
def resolveDependencyOrderF (n : Nat) (s : RegState) :
    Option (Except ErrCode (List String)) :=
  match (s.services.map Prod.fst).foldl
      (fun acc t =>
        match acc with
        | some (Except.ok st) => visitF n s.services t st
        | x => x)
      (some (Except.ok { visited := [], visiting := [], order := [] })) with
  | none => none
  | some (.error e) => some (.error e)
  | some (.ok st) => some (.ok st.order)

/-- The per-token loop of `initializeAll`: `get` each token; a failure is
    fatal only for critical services, otherwise logged and skipped. -/
def initLoop (n : Nat) : List String → RegState → Res Unit
  | [], s => .ok () s
  | t :: rest, s =>
    match getF n s t with
    | .out => .out
    | .ok _ s1 => initLoop n rest s1
    | .err _ s1 =>
      if isCriticalService t then .err .CRITICAL_SERVICE_INIT_FAILED s1
      else initLoop n rest s1

/-- `initializeAll()`: resolve the dependency order (a thrown
    `CIRCULAR_DEPENDENCY` propagates with the state untouched), record it in
    `initializationOrder`, then initialize in order. -/
def initializeAllF (n : Nat) (s : RegState) : Res Unit :=
  match resolveDependencyOrderF n s with
  | none => .out
  | some (.error e) => .err e s
  | some (.ok order) => initLoop n order { s with initializationOrder := order }

/-- The tokens whose instances `shutdown()` shuts down, in order: the
    reverse of the recorded initialization order, restricted to
    registrations holding a live instance. -/
def shutdownTrace (s : RegState) : List String :=
  s.initializationOrder.reverse.filter
    (fun t =>
      match mapGet s.services t with
      | some r => r.inst.isSome
      | none => false)

/-- `shutdown()`: a second call is a no-op thanks to the `isShuttingDown`
    guard; otherwise instances are shut down in reverse initialization
    order (the source keeps the `instance` fields after shutting them
    down). Returns the new state and the shutdown trace. -/
def shutdownF (s : RegState) : RegState × List String :=
  if s.isShuttingDown then (s, [])
  else ({ s with isShuttingDown := true }, shutdownTrace s)

/-! ## Module fault isolator (`ModularErrorBoundary.tsx`)

The boundary is a React class component driven by caught child errors,
two `setTimeout` callbacks (recovery and cooldown) and the user-triggered
`resetError`. It is modelled as a transition system: an event may fire
only when its guard holds (a child error can only be caught while the
children render, i.e. no current error and not recovering; a timer can
only fire while scheduled; `resetError` is only reachable from the
fallback UIs, rendered when an error is held and the boundary is not
recovering). Timer delays only affect *when* a pending timer fires, never
whether, so pending timers are modelled as counters and firings as
nondeterministically ordered events — a sound abstraction of every real
schedule. -/

/-- The boundary props consumed by the recovery logic. `maxRetries` is
    optional; the source reads it as `this.props.maxRetries || 3`. -/
structure BProps where
  enableRecovery : Bool
  maxRetries : Option Nat
deriving DecidableEq

/-- `this.props.maxRetries || 3` (JS `||`: `undefined` and `0` fall back). -/
def effMaxRetries (p : BProps) : Nat :=
  match p.maxRetries with
  | some m => if m = 0 then 3 else m
  | none => 3

/-- `ErrorBoundaryState`, with `hasError`/`error` fused into `err`
    (`some r` = an error with `recoverable = r` is held) and the two
    `setTimeout` handles as counts of pending callbacks. -/
structure BState where
  err : Option Bool
  retryCount : Nat
  isRecovering : Bool
  fallbackMode : Bool
  recoveryPending : Nat
  cooldownPending : Nat
deriving DecidableEq

/-- The constructor's initial state. -/
def initB : BState :=
  { err := none, retryCount := 0, isRecovering := false, fallbackMode := false,
    recoveryPending := 0, cooldownPending := 0 }

/-- Events that drive the boundary. -/
inductive BEvent
  | catchErr (recoverable : Bool)
  | recoveryFire
  | cooldownFire
  | reset
deriving DecidableEq

/-- Event guards, from the render contract: children (the only place child
    errors arise) render only with no held error and not recovering; the
    fallback UIs exposing `resetError` render when an error is held and the
    boundary is not recovering; a timer fires only while pending. -/
def benabled (s : BState) : BEvent → Bool
  | .catchErr _ => s.err.isNone && !s.isRecovering
  | .recoveryFire => decide (0 < s.recoveryPending)
  | .cooldownFire => decide (0 < s.cooldownPending)
  | .reset => s.err.isSome && !s.isRecovering

/-- `attemptRecovery`: at or above the retry ceiling enter fallback mode
    and stop (no timer is scheduled); below it mark recovering and schedule
    the recovery timer (the exponential backoff delay does not affect the
    transition structure). -/
def attemptRecovery (p : BProps) (s : BState) : BState :=
  if effMaxRetries p ≤ s.retryCount then
    { s with fallbackMode := true, isRecovering := false }
  else
    { s with isRecovering := true, recoveryPending := s.recoveryPending + 1 }

/-- One transition. `catchErr` is `getDerivedStateFromError` +
    `componentDidCatch` (store the error, then `attemptRecovery` when
    recovery is enabled and the error recoverable); `recoveryFire` is the
    recovery `setTimeout` callback (clear the error, bump `retryCount`,
    start the cooldown); `cooldownFire` resets `retryCount`; `reset` is the
    manual `resetError` (clears error and fallback mode, keeps
    `retryCount`, starts the cooldown). -/
def step (p : BProps) (s : BState) : BEvent → BState
  | .catchErr rec =>
    let s1 := { s with err := some rec }
    if p.enableRecovery && rec then attemptRecovery p s1 else s1
  | .recoveryFire =>
    { s with err := none, retryCount := s.retryCount + 1, isRecovering := false,
             recoveryPending := s.recoveryPending - 1,
             cooldownPending := s.cooldownPending + 1 }
  | .cooldownFire =>
    { s with retryCount := 0, cooldownPending := s.cooldownPending - 1 }
  | .reset =>
    { s with err := none, isRecovering := false, fallbackMode := false,
             cooldownPending := s.cooldownPending + 1 }

/-- `canRetry()`: a recoverable error is held, the retry count is below the
    ceiling, and the boundary is not in fallback mode. -/
def canRetry (p : BProps) (s : BState) : Bool :=
  (match s.err with
   | some r => r
   | none => false)
  && decide (s.retryCount < effMaxRetries p) && !s.fallbackMode

/-- States reachable from the initial state through guarded events. -/
inductive BReach (p : BProps) : BState → Prop
  | start : BReach p initB
  | next {s} (e : BEvent) : BReach p s → benabled s e = true → BReach p (step p s e)

/-! ## Concrete states used by the claims -/

/-- Registration record of service `A` in the two-service cycle. -/
def cycRegA : Registration :=
  { token := "A", implementation := { id := 1, initOk := true, healthy := true },
    inst := none, dependencies := ["B"], config := 0, singleton := true }

/-- Registration record of service `B` in the two-service cycle. -/
def cycRegB : Registration :=
  { token := "B", implementation := { id := 2, initOk := true, healthy := true },
    inst := none, dependencies := ["A"], config := 0, singleton := true }

/-- Registry holding the cyclic pair `{A → [B], B → [A]}`. -/
def cycState : RegState :=
  { services := [("A", cycRegA), ("B", cycRegB)],
    initializationOrder := [], isShuttingDown := false }

/-- Registry holding the chain `{A → [], B → [A], C → [B]}` of claim C6. -/
def chainState : RegState :=
  { services :=
      [("A", { token := "A", implementation := { id := 1, initOk := true, healthy := true },
               inst := none, dependencies := [], config := 0, singleton := true }),
       ("B", { token := "B", implementation := { id := 2, initOk := true, healthy := true },
               inst := none, dependencies := ["A"], config := 0, singleton := true }),
       ("C", { token := "C", implementation := { id := 3, initOk := true, healthy := true },
               inst := none, dependencies := ["B"], config := 0, singleton := true })],
    initializationOrder := [], isShuttingDown := false }

/-- The chain registry after `initializeAll` (pinned by `c6_theorem`). -/
def chainInited : RegState :=
  match initializeAllF 10 chainState with
  | .ok _ s => s
  | .err _ s => s
  | .out => emptyReg

/-- Registration of the live singleton `A` in `oneLiveState`. -/
def oneLiveRegA : Registration :=
  { token := "A", implementation := { id := 1, initOk := true, healthy := true },
    inst := some { implId := 1 }, dependencies := [], config := 7, singleton := true }

/-- A registry with one registered singleton `A` holding a live instance. -/
def oneLiveState : RegState :=
  { services := [("A", oneLiveRegA)],
    initializationOrder := ["A"], isShuttingDown := false }

/-- Default flag state with `BASIC_AUTH` given a disabled dependency
    through the public `updateFlag` API (claim C3's counterexample). -/
def coreDepState : FlagsState :=
  (updateFlag defaultState "BASIC_AUTH"
    { dependencies := some (some ["MOBILE_APP_INTEGRATION"]) }).1

/-- One `reportError('MONEY_DONATIONS', ...)` call. -/
def moneyErrStep (s : FlagsState) : FlagsState := (reportError s "MONEY_DONATIONS").1

/-- Default flag state after exactly ten reported errors against
    `MONEY_DONATIONS` (claim C5's counterexample). -/
def tenErrState : FlagsState := moneyErrStep^[10] defaultState

/-- Default flag state with listener 0 registered on `NEW_DASHBOARD_UI`
    (claim C8's counterexample). -/
def dashListenState : FlagsState := onFlagChange defaultState "NEW_DASHBOARD_UI" 0

/-- Default flag state with `NEW_DASHBOARD_UI` switched on while its 10%
    rollout stays (claim C10's witness). -/
def dashOnState : FlagsState :=
  (updateFlag defaultState "NEW_DASHBOARD_UI" { enabled := some (true) }).1

/-- The boundary props of claim C9: recovery on, `maxRetries = 3`. -/
def p3 : BProps := { enableRecovery := true, maxRetries := some 3 }

/-- Three caught-recovered rounds followed by a fourth caught error: the
    event trace leading into fallback mode under `p3`. -/
def c9Events : List BEvent :=
  [.catchErr true, .recoveryFire, .catchErr true, .recoveryFire,
   .catchErr true, .recoveryFire, .catchErr true]

/-- The boundary state after `c9Events`. -/
def c9Final : BState := c9Events.foldl (step p3) initB

/-- Default flag state with the core flag `BASIC_AUTH` set `enabled:false`
    through `updateFlag` (claim C7's witness input). -/
def coreOffState : FlagsState :=
  (updateFlag defaultState "BASIC_AUTH" { enabled := some false }).1

/-! ## Derived predicates -/

/-- The `!config || !config.rollbackOnError` guard of `reportError`,
    as a predicate on the state. -/
def rollbackArmed (s : FlagsState) (name : String) : Bool :=
  match mapGet s.flags name with
  | some c => c.rollbackOnError == some true
  | none => false

/-- The three core flags are present in the flag map (an invariant of every
    reachable manager state: `initializeDefaultFlags` inserts them and no
    operation ever deletes a flag). -/
def corePresent (s : FlagsState) : Prop :=
  (mapGet s.flags "BASIC_AUTH").isSome = true
  ∧ (mapGet s.flags "DONATION_TRACKING").isSome = true
  ∧ (mapGet s.flags "CHARITY_SEARCH").isSome = true

/-- Inductive invariant of the error boundary: at most one recovery timer
    is ever pending, a pending recovery timer means the boundary is
    recovering, and in fallback mode an error is held, the boundary is not
    recovering and no recovery timer is pending. -/
def BInv (s : BState) : Prop :=
  s.recoveryPending ≤ 1
  ∧ (s.recoveryPending = 1 → s.isRecovering = true)
  ∧ (s.fallbackMode = true →
      s.err.isSome = true ∧ s.isRecovering = false ∧ s.recoveryPending = 0)

/-! # Theorems -/

/-! ## Map helper lemmas -/

theorem mapGet_mapSet_self {α : Type} (m : List (String × α)) (k : String) (v : α) :
    mapGet (mapSet m k v) k = some v := by
  induction m with
  | nil => simp [mapSet, mapGet]
  | cons a rest ih =>
    obtain ⟨a1, a2⟩ := a
    by_cases h : a1 = k
    · simp [mapSet, mapGet, h]
    · simp [mapSet, mapGet, h, ih]

theorem mapGet_mapSet_isSome {α : Type} (m : List (String × α)) (k k2 : String) (v : α)
    (h : (mapGet m k2).isSome = true) : (mapGet (mapSet m k v) k2).isSome = true := by
  induction m with
  | nil => simp [mapGet] at h
  | cons a rest ih =>
    obtain ⟨a1, a2⟩ := a
    by_cases hk : a1 = k
    · subst hk
      by_cases ha : a1 = k2
      · simp [mapSet, mapGet, ha]
      · simp only [mapSet, if_pos rfl]
        simp only [mapGet, if_neg ha] at h ⊢
        exact h
    · by_cases ha : a1 = k2
      · subst ha
        simp [mapSet, mapGet, hk]
      · simp only [mapSet, if_neg hk]
        simp only [mapGet, if_neg ha] at h ⊢
        exact ih h

theorem mapGet_eq_none_of_not_mem {α : Type} (m : List (String × α)) (k : String)
    (h : k ∉ m.map Prod.fst) : mapGet m k = none := by
  induction m with
  | nil => rfl
  | cons a rest ih =>
    obtain ⟨a1, a2⟩ := a
    simp only [List.map_cons, List.mem_cons] at h
    push_neg at h
    have h1 : ¬ a1 = k := fun he => h.1 he.symm
    simp [mapGet, h1, ih h.2]

theorem mapGet_mapDelete_mapSet {α : Type} (m : List (String × α)) (k : String) (v : α)
    (hnd : (m.map Prod.fst).Nodup) : mapGet (mapDelete (mapSet m k v) k) k = none := by
  induction m with
  | nil => simp [mapSet, mapDelete, mapGet]
  | cons a rest ih =>
    obtain ⟨a1, a2⟩ := a
    simp only [List.map_cons, List.nodup_cons] at hnd
    by_cases hk : a1 = k
    · subst hk
      simp only [mapSet, if_pos rfl, mapDelete, if_pos rfl]
      exact mapGet_eq_none_of_not_mem rest a1 hnd.1
    · simp [mapSet, mapDelete, mapGet, hk, ih hnd.2]

theorem mapGet_mem {α : Type} (m : List (String × α)) (k : String) (v : α)
    (h : mapGet m k = some v) : (k, v) ∈ m := by
  induction m with
  | nil => simp [mapGet] at h
  | cons a rest ih =>
    obtain ⟨a1, a2⟩ := a
    by_cases hk : a1 = k
    · subst hk
      simp only [mapGet, if_pos rfl] at h
      cases h
      exact List.mem_cons_self _ _
    · simp only [mapGet, if_neg hk] at h
      exact List.mem_cons_of_mem _ (ih h)

theorem mapGet_isSome_of_mem_keys {α : Type} (m : List (String × α)) (k : String)
    (h : k ∈ m.map Prod.fst) : (mapGet m k).isSome = true := by
  induction m with
  | nil => simp at h
  | cons a rest ih =>
    obtain ⟨a1, a2⟩ := a
    by_cases hk : a1 = k
    · simp [mapGet, hk]
    · simp only [List.map_cons, List.mem_cons] at h
      rcases h with h | h
      · exact absurd h.symm hk
      · simp [mapGet, hk, ih h]

/-! ## Lemmas on the dependency fold of `isEnabled` -/

theorem depAnd_foldl_stuck (g : String → Option Bool) :
    ∀ (l : List String) (a : Option Bool), a ≠ some true →
      l.foldl (fun acc d => depAnd acc (g d)) a = a := by
  intro l
  induction l with
  | nil => intro a _; rfl
  | cons x xs ih =>
    intro a ha
    have hd : depAnd a (g x) = a := by
      cases a with
      | none => rfl
      | some b => cases b with
        | false => rfl
        | true => exact absurd rfl ha
    simp only [List.foldl_cons, hd]
    exact ih a ha

theorem depAnd_foldl_eq_true (g : String → Option Bool) :
    ∀ (l : List String) (a : Option Bool),
      l.foldl (fun acc d => depAnd acc (g d)) a = some true →
      ∀ d ∈ l, g d = some true := by
  intro l
  induction l with
  | nil => intro a _ d hd; cases hd
  | cons x xs ih =>
    intro a h d hd
    simp only [List.foldl_cons] at h
    have ha : a = some true := by
      by_contra hne
      have hstep : depAnd a (g x) = a := by
        cases a with
        | none => rfl
        | some b => cases b with
          | false => rfl
          | true => exact absurd rfl hne
      rw [hstep, depAnd_foldl_stuck g xs a hne] at h
      exact hne h
    subst ha
    have hx : g x = some true := by
      by_contra hne
      have : depAnd (some true) (g x) = g x := rfl
      rw [this] at h
      rw [depAnd_foldl_stuck g xs (g x) hne] at h
      exact hne h
    rcases List.mem_cons.mp hd with rfl | hd2
    · exact hx
    · have : depAnd (some true) (g x) = g x := rfl
      rw [this, hx] at h
      exact ih (some true) h d hd2

theorem depAnd_foldl_congr (g1 g2 : String → Option Bool) :
    ∀ (l : List String), (∀ d ∈ l, g1 d = g2 d) → ∀ (a : Option Bool),
      l.foldl (fun acc d => depAnd acc (g1 d)) a
        = l.foldl (fun acc d => depAnd acc (g2 d)) a := by
  intro l
  induction l with
  | nil => intro _ a; rfl
  | cons x xs ih =>
    intro hg a
    simp only [List.foldl_cons, hg x (List.mem_cons_self x xs)]
    exact ih (fun d hd => hg d (List.mem_cons_of_mem x hd)) _

/-! ## Claim C1: replace atomicity -/

/-- Claim C1 (confirmed). For a registered token holding a live singleton
    instance, if the candidate replacement's initialization throws or its
    health check fails, `replace` throws `SERVICE_REPLACEMENT_FAILED` and
    returns with the registry state exactly as before the call — so the
    registration's implementation, config and cached instance are
    unchanged, and a subsequent `get(token)` still returns the original
    instance. -/
theorem replace_unhealthy_keeps_live_state
    (n m : Nat) (s : RegState) (token : String) (newImpl : Impl) (cfg : Option Nat)
    (reg : Registration) (i : Inst)
    (hreg : mapGet s.services token = some reg)
    (hsing : reg.singleton = true) (hinst : reg.inst = some i)
    (hbad : newImpl.initOk = false ∨ newImpl.healthy = false) :
    replaceF n s token newImpl cfg = Res.err ErrCode.SERVICE_REPLACEMENT_FAILED s
      ∧ getF (m + 1) s token = Res.ok i s := by
  constructor
  · simp only [replaceF, hreg]
    rcases hbad with hb | hb
    · simp [hb]
    · cases hio : newImpl.initOk <;> simp [hio, hb]
  · simp [getF, hreg, hsing, hinst]

/-- Claim C1 witness: a failed hot-swap of the live singleton `A` with an
    implementation whose initialization throws. -/
theorem replace_unhealthy_keeps_live_state_witness :
    replaceF 5 oneLiveState "A" { id := 2, initOk := false, healthy := true } none
        = Res.err ErrCode.SERVICE_REPLACEMENT_FAILED oneLiveState
      ∧ getF 5 oneLiveState "A" = Res.ok { implId := 1 } oneLiveState :=
  replace_unhealthy_keeps_live_state 5 4 oneLiveState "A"
    { id := 2, initOk := false, healthy := true } none oneLiveRegA { implId := 1 }
    (by decide) (by decide) (by decide) (Or.inl rfl)

/-! ## Claim C2: cycle detection -/

theorem getF_cyc_out : ∀ n, getF n cycState "A" = Res.out ∧ getF n cycState "B" = Res.out := by
  intro n
  induction n with
  | zero => exact ⟨rfl, rfl⟩
  | succ n ih =>
    have hA : mapGet cycState.services "A" = some cycRegA := by decide
    have hB : mapGet cycState.services "B" = some cycRegB := by decide
    constructor
    · simp only [getF, hA, cycRegA, List.foldl, resUnit, ih.2]
    · simp only [getF, hB, cycRegB, List.foldl, resUnit, ih.1]

/-- Claim C2 (corrected). For the cyclic registrations `{A → [B], B → [A]}`:
    `initializeAll()` terminates by throwing the `CIRCULAR_DEPENDENCY`
    `ServiceError` from `resolveDependencyOrder`, leaving the state
    untouched; but `get("A")` performs no cycle detection — the mutual
    `get`/`createInstance` recursion exceeds every depth bound, i.e. the
    source call never terminates at all. -/
theorem cyc_initializeAll_fails_get_diverges :
    initializeAllF 10 cycState = Res.err ErrCode.CIRCULAR_DEPENDENCY cycState
      ∧ ∀ n, getF n cycState "A" = Res.out :=
  ⟨by decide, fun n => (getF_cyc_out n).1⟩

/-- Claim C2 counterexample: contrary to the claim, `get("A")` on the
    cyclic pair never terminates with a circular-dependency error (nor any
    other outcome): no recursion depth bound ever yields anything but
    divergence. -/
theorem cyc_get_never_returns : ¬ ∃ n, getF n cycState "A" ≠ Res.out :=
  fun h => h.elim (fun n hn => hn (getF_cyc_out n).1)

/-! ## Claim C6: registry ordering and shutdown symmetry -/

/-- Claim C6 (confirmed). For the registrations `{A → [], B → [A], C → [B]}`,
    `initializeAll()` records the initialization order `[A, B, C]` (A before
    B before C), a subsequent `shutdown()` shuts the live instances down in
    exactly the reverse order `[C, B, A]` while setting the re-entry guard,
    and a second `shutdown()` performs no shutdowns. -/
theorem chain_order_and_shutdown :
    initializeAllF 10 chainState = Res.ok () chainInited
      ∧ chainInited.initializationOrder = ["A", "B", "C"]
      ∧ (shutdownF chainInited).2 = ["C", "B", "A"]
      ∧ (shutdownF chainInited).1.isShuttingDown = true
      ∧ (shutdownF (shutdownF chainInited).1).2 = [] := by
  decide

/-! ## Claim C4: rollout determinism -/

/-- Claim C4 (confirmed). `isEnabled` is a function of the flag
    configuration map and the user context alone: two manager states
    agreeing on those two fields (error counters, listeners and any other
    instance state may differ arbitrarily) resolve every flag identically,
    at every recursion depth and evaluation time. In particular repeated
    calls return the same boolean (the embedding of `isEnabled` mutates no
    state, matching the source), two manager instances with identical
    config and context agree, and the rollout bucket is computed by the
    pure string hash `hashUserId` — the embedding contains no source of
    randomness because the source contains none. -/
theorem isEnabled_deterministic (n : Nat) (now : Int) (s1 s2 : FlagsState)
    (h1 : s1.flags = s2.flags) (h2 : s1.userContext = s2.userContext) (f : String) :
    isEnabledF n now s1 f = isEnabledF n now s2 f := by
  induction n generalizing f with
  | zero => rfl
  | succ n ih =>
    simp only [isEnabledF, h1, h2]
    cases hc : mapGet s2.flags f with
    | none => rfl
    | some config =>
      dsimp only
      have hfold :
          (config.dependencies.getD []).foldl
              (fun acc d => depAnd acc (isEnabledF n now s1 d)) (some true)
            = (config.dependencies.getD []).foldl
              (fun acc d => depAnd acc (isEnabledF n now s2 d)) (some true) :=
        depAnd_foldl_congr _ _ _ (fun d _ => ih d) _
      rw [hfold]

/-- Claim C4 witness: the default manager and a manager differing only in
    error counters and listeners resolve `NEW_DASHBOARD_UI` identically. -/
theorem isEnabled_deterministic_witness :
    isEnabledF 5 0 defaultState "NEW_DASHBOARD_UI"
      = isEnabledF 5 0
          { defaultState with errorCounts := [("X", 3)], listeners := [("Y", [1])] }
          "NEW_DASHBOARD_UI" :=
  isEnabled_deterministic 5 0 _ _ rfl rfl "NEW_DASHBOARD_UI"

/-! ## Claim C3: flag dependency composition -/

/-- Claim C3 (corrected). For every manager state and every pair of flags
    `a`, `b` in the flag map such that `a` is *not* one of the three core
    flags and `a`'s config lists `b` among its dependencies: whenever
    `isEnabled(a)` resolves `true` (at any recursion depth), `isEnabled(b)`
    also resolves `true`. Equivalently a disabled dependency forces every
    non-core dependent flag to resolve false. (Core flags are exempt: the
    hard-coded core check precedes the dependency walk, see the
    counterexample.) -/
theorem flag_dep_composition (now : Int) (s : FlagsState) (a b : String)
    (ca : FeatureFlagConfig) (hca : mapGet s.flags a = some ca)
    (hdep : b ∈ ca.dependencies.getD []) (hcore : coreFlag a = false)
    (n : Nat) (h : isEnabledF n now s a = some true) :
    ∃ m, isEnabledF m now s b = some true := by
  cases n with
  | zero => exact absurd h (by simp [isEnabledF])
  | succ n =>
    simp only [isEnabledF, hca, hcore, Bool.false_eq_true, if_false] at h
    split at h
    · exact absurd h (by simp)
    · split at h
      · exact absurd h (by simp)
      · split at h
        · exact absurd h (by simp)
        · split at h
          case _ heq => exact absurd h (by simp)
          case _ heq => exact absurd h (by simp)
          case _ heq =>
            exact ⟨n, depAnd_foldl_eq_true _ _ _ heq b hdep⟩

/-- Claim C3 witness: in the default configuration, `STOCK_PRICING_API`
    depends on `STOCK_DONATIONS`; with both enabled, the dependent resolves
    true, hence so does the dependency. -/
theorem flag_dep_composition_witness :
    ∃ m, isEnabledF m 0 defaultState "STOCK_DONATIONS" = some true :=
  flag_dep_composition 0 defaultState "STOCK_PRICING_API" "STOCK_DONATIONS"
    { enabled := true, rollbackOnError := some true,
      dependencies := some ["STOCK_DONATIONS"],
      description := some "Real-time stock price lookup" }
    (by decide) (by decide) (by decide) 5 (by decide)

/-- Claim C3 counterexample: the claim as stated quantifies over *every*
    pair of flags in the map, but a core flag bypasses the dependency
    check. Giving `BASIC_AUTH` the dependency `MOBILE_APP_INTEGRATION`
    (disabled by default) through the public `updateFlag` API yields a
    state where the dependent resolves `true` while its dependency
    resolves `false`. -/
theorem flag_dep_composition_counterexample :
    (mapGet coreDepState.flags "BASIC_AUTH").map (fun c => c.dependencies)
        = some (some ["MOBILE_APP_INTEGRATION"])
      ∧ isEnabledF 5 0 coreDepState "BASIC_AUTH" = some true
      ∧ isEnabledF 5 0 coreDepState "MOBILE_APP_INTEGRATION" = some false := by
  decide

/-! ## Claim C10: rollout gating without identity -/

/-- Claim C10 (confirmed). A non-core flag whose config defines a
    `rolloutPercentage` strictly below 100 never resolves `true` while no
    user context is set or the user context's `userId` is empty (the
    source's falsy check `!this.userContext?.userId`): whatever the
    percentage and the rest of the config, at every recursion depth the
    result is `false` (or the dependency walk diverges) — never `true`. -/
theorem rollout_needs_userId (now : Int) (s : FlagsState) (f : String)
    (c : FeatureFlagConfig) (p : Int)
    (hc : mapGet s.flags f = some c) (hcore : coreFlag f = false)
    (hp : c.rolloutPercentage = some p) (hlt : p < 100)
    (hanon : ∀ u, s.userContext = some u → u.userId = "")
    (n : Nat) : isEnabledF n now s f ≠ some true := by
  intro h
  cases n with
  | zero => exact absurd h (by simp [isEnabledF])
  | succ n =>
    simp only [isEnabledF, hc, hcore, Bool.false_eq_true, if_false, hp] at h
    split at h
    · exact absurd h (by simp)
    · split at h
      · exact absurd h (by simp)
      · split at h
        · exact absurd h (by simp)
        · split at h
          case _ heq => exact absurd h (by simp)
          case _ heq => exact absurd h (by simp)
          case _ heq =>
            split at h
            · exact absurd h (by simp)
            · cases hu : s.userContext with
              | none =>
                simp only [hu] at h
                exact absurd h (by simp)
              | some u =>
                simp only [hu] at h
                rw [if_pos (hanon u hu)] at h
                exact absurd h (by simp)

/-- Claim C10 witness: `NEW_DASHBOARD_UI` switched on (10% rollout kept)
    with no user context does not resolve `true`. -/
theorem rollout_needs_userId_witness :
    isEnabledF 3 0 dashOnState "NEW_DASHBOARD_UI" ≠ some true :=
  rollout_needs_userId 0 dashOnState "NEW_DASHBOARD_UI"
    { enabled := true, rolloutPercentage := some 10, rollbackOnError := some true,
      description := some "Redesigned dashboard interface" }
    10 (by decide) (by decide) (by decide) (by decide)
    (by
      intro u hu
      rw [show dashOnState.userContext = none from rfl] at hu
      exact Option.noConfusion hu)
    3

/-! ## Claim C5: auto-rollback threshold -/

/-- Claim C5 (corrected). `reportError(flagName, error)` leaves the state
    unchanged unless the flag's config exists with `rollbackOnError: true`.
    When armed, the call increments the stored error counter — and the
    force-disable fires only on the call that finds the stored counter
    already at 10 or more (the source compares the *pre-increment* count
    against the threshold), i.e. on the 11th error, not when the counter
    reaches 10; at that point the flag's `enabled` is set `false` and the
    counter entry is removed, so the stored count reads 0 again. -/
theorem reportError_behaviour (s : FlagsState) (name : String) :
    (rollbackArmed s name = false → reportError s name = (s, []))
      ∧ (rollbackArmed s name = true → mapGetN s.errorCounts name < 10 →
          reportError s name
            = ({ s with errorCounts :=
                  mapSet s.errorCounts name (mapGetN s.errorCounts name + 1) }, []))
      ∧ (rollbackArmed s name = true → 10 ≤ mapGetN s.errorCounts name →
          (s.errorCounts.map Prod.fst).Nodup →
          (mapGet (reportError s name).1.flags name).map (fun c => c.enabled) = some false
            ∧ mapGetN (reportError s name).1.errorCounts name = 0) := by
  refine ⟨?_, ?_, ?_⟩
  · intro harm
    cases hc : mapGet s.flags name with
    | none => simp [reportError, hc]
    | some c =>
      have hro : c.rollbackOnError ≠ some true := by
        simp only [rollbackArmed, hc] at harm
        simpa using harm
      simp [reportError, hc, hro]
  · intro harm hlt
    cases hc : mapGet s.flags name with
    | none => simp [rollbackArmed, hc] at harm
    | some c =>
      have hro : c.rollbackOnError = some true := by
        simp only [rollbackArmed, hc] at harm
        simpa using harm
      have hnot : ¬ 10 ≤ mapGetN s.errorCounts name := by omega
      simp [reportError, hc, hro, hnot]
  · intro harm hge hnd
    cases hc : mapGet s.flags name with
    | none => simp [rollbackArmed, hc] at harm
    | some c =>
      have hro : c.rollbackOnError = some true := by
        simp only [rollbackArmed, hc] at harm
        simpa using harm
      constructor
      · simp only [reportError, hc, hro, ne_eq, not_true_eq_false, if_false, if_pos hge]
        simp [updateFlag, mapGet_mapSet_self, mergeConfig]
      · simp only [reportError, hc, hro, ne_eq, not_true_eq_false, if_false, if_pos hge]
        simp only [updateFlag, mapGetN]
        rw [mapGet_mapDelete_mapSet s.errorCounts name _ hnd]
        rfl

/-- Claim C5 counterexample: after exactly ten reported errors against
    `MONEY_DONATIONS` (armed with `rollbackOnError: true`), the stored
    counter has reached the threshold 10, yet the flag is still enabled —
    the force-disable has not fired. -/
theorem reportError_threshold_counterexample :
    (mapGet tenErrState.flags "MONEY_DONATIONS").map (fun c => c.enabled) = some true
      ∧ mapGetN tenErrState.errorCounts "MONEY_DONATIONS" = 10 := by
  decide

/-- Claim C5 witness: the eleventh reported error disables the flag and
    resets the counter. -/
theorem reportError_behaviour_witness :
    (mapGet (reportError tenErrState "MONEY_DONATIONS").1.flags "MONEY_DONATIONS").map
        (fun c => c.enabled) = some false
      ∧ mapGetN (reportError tenErrState "MONEY_DONATIONS").1.errorCounts
          "MONEY_DONATIONS" = 0 :=
  (reportError_behaviour tenErrState "MONEY_DONATIONS").2.2
    (by decide) (by decide) (by decide)

/-! ## Claim C8: updateFlag notification -/

/-- Claim C8 (corrected). `updateFlag(name, partialConfig)` merges the
    partial config over the existing config (base `{enabled: false}` when
    the flag does not exist), stores the result, and synchronously invokes
    each listener registered for that flag exactly once — but the boolean
    passed to every listener is the merged config's raw `enabled` field,
    not the resolution `isEnabled` would compute after the update (the two
    differ, see the counterexample). No other manager state changes. -/
theorem updateFlag_merges_and_notifies (s : FlagsState) (name : String)
    (p : PartialFlagConfig) :
    (updateFlag s name p).1.flags
        = mapSet s.flags name
            (mergeConfig ((mapGet s.flags name).getD { enabled := false }) p)
      ∧ (updateFlag s name p).2
          = ((mapGet s.listeners name).getD []).map
              (fun id =>
                (id, (mergeConfig ((mapGet s.flags name).getD { enabled := false }) p).enabled))
      ∧ (updateFlag s name p).1.userContext = s.userContext
      ∧ (updateFlag s name p).1.errorCounts = s.errorCounts
      ∧ (updateFlag s name p).1.listeners = s.listeners :=
  ⟨rfl, rfl, rfl, rfl, rfl⟩

/-- Claim C8 counterexample: with listener 0 registered on
    `NEW_DASHBOARD_UI` (rollout 10%), `updateFlag` with `{enabled: true}`
    notifies the listener with `true`, while the flag's new resolution for
    the current (empty) user context is `false`. -/
theorem updateFlag_notifies_raw_enabled :
    (updateFlag dashListenState "NEW_DASHBOARD_UI" { enabled := some true }).2 = [(0, true)]
      ∧ isEnabledF 3 0
          (updateFlag dashListenState "NEW_DASHBOARD_UI" { enabled := some true }).1
          "NEW_DASHBOARD_UI" = some false := by
  decide

/-! ## Claim C7: core flag permanence -/

theorem corePresent_updateFlag (s : FlagsState) (name : String) (p : PartialFlagConfig)
    (h : corePresent s) : corePresent (updateFlag s name p).1 :=
  ⟨mapGet_mapSet_isSome _ _ _ _ h.1,
   mapGet_mapSet_isSome _ _ _ _ h.2.1,
   mapGet_mapSet_isSome _ _ _ _ h.2.2⟩

theorem corePresent_updateFlags (s : FlagsState) (fs : List (String × Bool))
    (h : corePresent s) : corePresent (updateFlags s fs) := by
  induction fs generalizing s with
  | nil => exact h
  | cons nb rest ih =>
    exact ih _ (corePresent_updateFlag s nb.1 { enabled := some nb.2 } h)

theorem corePresent_reportError (s : FlagsState) (name : String)
    (h : corePresent s) : corePresent (reportError s name).1 := by
  unfold reportError
  cases hc : mapGet s.flags name with
  | none => exact h
  | some c =>
    dsimp only
    split
    · exact h
    · split
      · exact corePresent_updateFlag _ name { enabled := some false } h
      · exact h

theorem corePresent_reach (s : FlagsState) (h : FlagsReach s) : corePresent s := by
  induction h with
  | ctor initial =>
    cases initial with
    | none => exact ⟨by decide, by decide, by decide⟩
    | some fs => exact corePresent_updateFlags _ fs ⟨by decide, by decide, by decide⟩
  | upd name p _ ih => exact corePresent_updateFlag _ name p ih
  | updMany fs _ ih => exact corePresent_updateFlags _ fs ih
  | report name _ ih => exact corePresent_reportError _ name ih
  | setCtx u _ ih => exact ih
  | listen name id _ ih => exact ih

theorem getEnabledFlags_core_true (fuel : Nat) (now : Int) (s : FlagsState) :
    ∀ (l : List String) (m : List (String × Bool)),
      l.foldr
        (fun fn acc =>
          match acc with
          | none => none
          | some rest =>
            if coreFlag fn then some ((fn, true) :: rest)
            else
              match isEnabledF fuel now s fn with
              | none => none
              | some b => some ((fn, b) :: rest))
        (some []) = some m →
      ∀ kv ∈ m, coreFlag kv.1 = true → kv.2 = true := by
  intro l
  induction l with
  | nil =>
    intro m hm kv hkv
    simp only [List.foldr_nil] at hm
    cases hm
    cases hkv
  | cons fn rest ih =>
    intro m hm kv hkv hcore
    simp only [List.foldr_cons] at hm
    cases hrest : rest.foldr
        (fun fn acc =>
          match acc with
          | none => none
          | some rest =>
            if coreFlag fn then some ((fn, true) :: rest)
            else
              match isEnabledF fuel now s fn with
              | none => none
              | some b => some ((fn, b) :: rest))
        (some []) with
    | none => rw [hrest] at hm; exact Option.noConfusion hm
    | some m0 =>
      rw [hrest] at hm
      dsimp only at hm
      by_cases hcf : coreFlag fn = true
      · rw [if_pos hcf] at hm
        cases hm
        rcases List.mem_cons.mp hkv with rfl | hkv2
        · rfl
        · exact ih m0 hrest kv hkv2 hcore
      · rw [if_neg hcf] at hm
        cases hie : isEnabledF fuel now s fn with
        | none => rw [hie] at hm; exact Option.noConfusion hm
        | some b =>
          rw [hie] at hm
          dsimp only at hm
          cases hm
          rcases List.mem_cons.mp hkv with rfl | hkv2
          · exact absurd hcore hcf
          · exact ih m0 hrest kv hkv2 hcore

theorem getEnabledFlags_keys (fuel : Nat) (now : Int) (s : FlagsState) :
    ∀ (l : List String) (m : List (String × Bool)),
      l.foldr
        (fun fn acc =>
          match acc with
          | none => none
          | some rest =>
            if coreFlag fn then some ((fn, true) :: rest)
            else
              match isEnabledF fuel now s fn with
              | none => none
              | some b => some ((fn, b) :: rest))
        (some []) = some m →
      m.map Prod.fst = l := by
  intro l
  induction l with
  | nil =>
    intro m hm
    simp only [List.foldr_nil] at hm
    cases hm
    rfl
  | cons fn rest ih =>
    intro m hm
    simp only [List.foldr_cons] at hm
    cases hrest : rest.foldr
        (fun fn acc =>
          match acc with
          | none => none
          | some rest =>
            if coreFlag fn then some ((fn, true) :: rest)
            else
              match isEnabledF fuel now s fn with
              | none => none
              | some b => some ((fn, b) :: rest))
        (some []) with
    | none => rw [hrest] at hm; exact Option.noConfusion hm
    | some m0 =>
      rw [hrest] at hm
      dsimp only at hm
      by_cases hcf : coreFlag fn = true
      · rw [if_pos hcf] at hm
        cases hm
        simp [ih m0 hrest]
      · rw [if_neg hcf] at hm
        cases hie : isEnabledF fuel now s fn with
        | none => rw [hie] at hm; exact Option.noConfusion hm
        | some b =>
          rw [hie] at hm
          dsimp only at hm
          cases hm
          simp [ih m0 hrest]

/-- Claim C7 (confirmed). In every manager state reachable through the
    public API (constructor with optional initial flags, `updateFlag`,
    `updateFlags`, `reportError`, `setUserContext`, `onFlagChange`) — in
    particular after setting `enabled:false` or any restricting config on
    them — each of `BASIC_AUTH`, `DONATION_TRACKING` and `CHARITY_SEARCH`
    resolves `true` under `isEnabled` for every user context, evaluation
    time and recursion depth, and every completed `getEnabledFlags()` call
    maps it to `true`. -/
theorem core_flags_permanent (s : FlagsState) (h : FlagsReach s) (name : String)
    (hname : name = "BASIC_AUTH" ∨ name = "DONATION_TRACKING" ∨ name = "CHARITY_SEARCH") :
    (∀ (n : Nat) (now : Int), isEnabledF (n + 1) now s name = some true)
      ∧ ∀ (fuel : Nat) (now : Int) (m : List (String × Bool)),
          getEnabledFlagsF fuel now s = some m → mapGet m name = some true := by
  have hpres := corePresent_reach s h
  have hsome : (mapGet s.flags name).isSome = true := by
    rcases hname with rfl | rfl | rfl
    · exact hpres.1
    · exact hpres.2.1
    · exact hpres.2.2
  have hcore : coreFlag name = true := by
    rcases hname with rfl | rfl | rfl <;> decide
  constructor
  · intro n now
    obtain ⟨c, hc⟩ := Option.isSome_iff_exists.mp hsome
    simp [isEnabledF, hc, hcore]
  · intro fuel now m hm
    have hmem : name ∈ flagNames := by
      rcases hname with rfl | rfl | rfl <;> decide
    have hkeys := getEnabledFlags_keys fuel now s flagNames m hm
    have hks : (mapGet m name).isSome = true :=
      mapGet_isSome_of_mem_keys m name (by rw [hkeys]; exact hmem)
    obtain ⟨b, hb⟩ := Option.isSome_iff_exists.mp hks
    have hbt : b = true :=
      getEnabledFlags_core_true fuel now s flagNames m hm (name, b)
        (mapGet_mem m name b hb) hcore
    rw [hb, hbt]

/-- Claim C7 witness: after disabling `BASIC_AUTH` through `updateFlag`, it
    still resolves `true` and `getEnabledFlags` still maps it to `true`. -/
theorem core_flags_permanent_witness :
    isEnabledF 3 0 coreOffState "BASIC_AUTH" = some true
      ∧ mapGet ((getEnabledFlagsF 3 0 coreOffState).getD []) "BASIC_AUTH" = some true := by
  have h := core_flags_permanent coreOffState
    (FlagsReach.upd "BASIC_AUTH" { enabled := some false } (FlagsReach.ctor none))
    "BASIC_AUTH" (Or.inl rfl)
  refine ⟨h.1 2 0, ?_⟩
  have hm : getEnabledFlagsF 3 0 coreOffState
      = some ((getEnabledFlagsF 3 0 coreOffState).getD []) := by decide
  rw [h.2 3 0 _ hm]

/-! ## Claim C9: isolator retry ceiling -/

theorem binv_step (s : BState) (e : BEvent) (h : BInv s)
    (he : benabled s e = true) : BInv (step p3 s e) := by
  obtain ⟨h1, h2, h3⟩ := h
  cases e with
  | catchErr rec =>
    simp only [benabled, Bool.and_eq_true, Option.isNone_iff_eq_none,
      Bool.not_eq_true'] at he
    obtain ⟨herr, hrec⟩ := he
    have hp0 : s.recoveryPending = 0 := by
      rcases Nat.le_one_iff_eq_zero_or_eq_one.mp h1 with h0 | hone
      · exact h0
      · rw [h2 hone] at hrec
        exact absurd hrec (by simp)
    have hfb : s.fallbackMode = false := by
      by_contra hne
      have hx := (h3 (by simp at hne; exact hne)).1
      rw [herr] at hx
      exact absurd hx (by simp)
    simp only [step]
    split
    · simp only [attemptRecovery]
      split
      · refine ⟨?_, ?_, ?_⟩
        · show s.recoveryPending ≤ 1
          omega
        · intro hone
          exact absurd (show s.recoveryPending = 1 from hone) (by omega)
        · intro _
          exact ⟨rfl, rfl, hp0⟩
      · refine ⟨?_, ?_, ?_⟩
        · show s.recoveryPending + 1 ≤ 1
          omega
        · intro _
          rfl
        · intro hf
          exact absurd (show s.fallbackMode = true from hf) (by simp [hfb])
    · exact ⟨h1, h2, fun hf => ⟨rfl, (h3 hf).2.1, (h3 hf).2.2⟩⟩
  | recoveryFire =>
    simp only [benabled, decide_eq_true_eq] at he
    have hfb : s.fallbackMode = false := by
      by_contra hne
      have hx := (h3 (by simp at hne; exact hne)).2.2
      omega
    refine ⟨?_, ?_, ?_⟩
    · show s.recoveryPending - 1 ≤ 1
      omega
    · intro hone
      exact absurd (show s.recoveryPending - 1 = 1 from hone) (by omega)
    · intro hf
      exact absurd (show s.fallbackMode = true from hf) (by simp [hfb])
  | cooldownFire =>
    exact ⟨h1, h2, fun hf => h3 hf⟩
  | reset =>
    simp only [benabled, Bool.and_eq_true, Bool.not_eq_true'] at he
    obtain ⟨herr, hrec⟩ := he
    have hp0 : s.recoveryPending = 0 := by
      rcases Nat.le_one_iff_eq_zero_or_eq_one.mp h1 with h0 | hone
      · exact h0
      · rw [h2 hone] at hrec
        exact absurd hrec (by simp)
    refine ⟨?_, ?_, ?_⟩
    · show s.recoveryPending ≤ 1
      omega
    · intro hone
      exact absurd (show s.recoveryPending = 1 from hone) (by omega)
    · intro hf
      exact absurd (show (false : Bool) = true from hf) (by simp)

theorem binv_reach (s : BState) (h : BReach p3 s) : BInv s := by
  induction h with
  | start => exact ⟨by decide, by decide, by decide⟩
  | next e _ he ih => exact binv_step _ e ih he

/-- Claim C9 (confirmed). For a boundary with `enableRecovery` and
    `maxRetries = 3`, in every reachable state: (1) in fallback mode
    `canRetry()` is `false`; (2) once `retryCount` has reached 3, catching
    the next recoverable error enters fallback mode without scheduling any
    recovery timer; (3) from a fallback-mode state, every enabled event
    other than the manual `resetError` leaves the boundary in fallback mode
    with the same held error and no recovery timer pending — caught errors
    and recovery firings are impossible there, only the cooldown timer can
    fire and it keeps the degraded state; (4) the manual `resetError`
    clears fallback mode and starts the cooldown timer. -/
theorem isolator_retry_ceiling (s : BState) (h : BReach p3 s) :
    (s.fallbackMode = true → canRetry p3 s = false)
      ∧ (3 ≤ s.retryCount → benabled s (BEvent.catchErr true) = true →
          (step p3 s (BEvent.catchErr true)).fallbackMode = true
            ∧ (step p3 s (BEvent.catchErr true)).recoveryPending = 0
            ∧ (step p3 s (BEvent.catchErr true)).isRecovering = false)
      ∧ (∀ e, s.fallbackMode = true → e ≠ BEvent.reset → benabled s e = true →
          (step p3 s e).fallbackMode = true ∧ (step p3 s e).err = s.err
            ∧ (step p3 s e).recoveryPending = 0)
      ∧ (s.fallbackMode = true → benabled s BEvent.reset = true →
          (step p3 s BEvent.reset).fallbackMode = false
            ∧ (step p3 s BEvent.reset).cooldownPending = s.cooldownPending + 1) := by
  have hinv := binv_reach s h
  refine ⟨?_, ?_, ?_, ?_⟩
  · intro hfb
    simp [canRetry, hfb]
  · intro hretry he
    have hp0 : s.recoveryPending = 0 := by
      simp only [benabled, Bool.and_eq_true, Bool.not_eq_true'] at he
      rcases Nat.le_one_iff_eq_zero_or_eq_one.mp hinv.1 with h0 | hone
      · exact h0
      · rw [hinv.2.1 hone] at he
        exact absurd he.2 (by simp)
    have heff : effMaxRetries p3 = 3 := by decide
    simp only [step]
    split
    · simp only [attemptRecovery]
      split
      · exact ⟨rfl, hp0, rfl⟩
      · case _ hlt => exact absurd (by omega : effMaxRetries p3 ≤ s.retryCount) hlt
    · case _ hcond =>
        exact absurd (by decide : (p3.enableRecovery && true) = true) hcond
  · intro e hfb hne he
    obtain ⟨herr, _, hp0⟩ := hinv.2.2 hfb
    cases e with
    | catchErr rec =>
      simp only [benabled, Bool.and_eq_true, Option.isNone_iff_eq_none] at he
      rw [he.1] at herr
      exact absurd herr (by simp)
    | recoveryFire =>
      simp only [benabled, decide_eq_true_eq] at he
      omega
    | cooldownFire =>
      exact ⟨hfb, rfl, hp0⟩
    | reset => exact absurd rfl hne
  · intro hfb _
    exact ⟨rfl, rfl⟩

/-- Claim C9 witness: after three caught-and-recovered rounds and a fourth
    caught recoverable error the boundary is in fallback mode with
    `retryCount = 3`; `canRetry()` is `false` there, and the pending
    cooldown firing keeps it in fallback mode. -/
theorem isolator_retry_ceiling_witness :
    canRetry p3 c9Final = false
      ∧ (step p3 c9Final BEvent.cooldownFire).fallbackMode = true := by
  have h0 : BReach p3 initB := BReach.start
  have h1 := BReach.next (BEvent.catchErr true) h0 (by decide)
  have h2 := BReach.next BEvent.recoveryFire h1 (by decide)
  have h3 := BReach.next (BEvent.catchErr true) h2 (by decide)
  have h4 := BReach.next BEvent.recoveryFire h3 (by decide)
  have h5 := BReach.next (BEvent.catchErr true) h4 (by decide)
  have h6 := BReach.next BEvent.recoveryFire h5 (by decide)
  have h7 := BReach.next (BEvent.catchErr true) h6 (by decide)
  have hr : BReach p3 c9Final := h7
  have main := isolator_retry_ceiling c9Final hr
  exact ⟨main.1 (by decide),
    (main.2.2.1 BEvent.cooldownFire (by decide) (by decide) (by decide)).1⟩
